import Mathlib

/-!
Verification of the apple_nowplaying_tracker repository: a shallow embedding of
the ingest dedup gate (nowplaying_multi.py, spotify_nowplaying.py), the
failure-notification state machine (notify.py), and the session-reconstruction
query (analyze_sessions.py), together with theorems settling the spec claims.

Layout: all definitions first, then the theorems.
-/

namespace AppleNowPlaying

/-! ## Ingest gate (nowplaying_multi.py and spotify_nowplaying.py)

A row of the `now_playing` table, restricted to the columns the dedup gates
read or that belong to the media identity.  Timestamps are rationals (seconds);
DuckDB NULLs are `Option`. -/

structure NPEvent where
  ts : ℚ
  state : String
  app : Option String
  title : Option String
  artist : Option String
  album : Option String
  series_name : Option String
  season : Option Int
  episode : Option Int
  media_type : Option String
deriving DecidableEq

/-- The pause-dedup gate of `log_device_now_playing` (nowplaying_multi.py,
lines 150-175).  `last` is the most recent stored row for this device (as
returned by `get_last_row`, which only reads ts, state, app, title,
series_name, season, episode, media_type); `c` is the candidate observation.
Returns `true` when the insert is skipped.  Mirrors:
`same_show = last_app == app and last_title == title and
last_series_name == series_name and last_season == season and
last_episode == episode and last_media_type == media_type`;
skip when `state == "Paused" and last_state == "Paused" and same_show`. -/
def deviceSuppress (last : Option NPEvent) (c : NPEvent) : Bool :=
  match last with
  | none => false
  | some p =>
      let same_show := p.app == c.app && p.title == c.title
        && p.series_name == c.series_name && p.season == c.season
        && p.episode == c.episode && p.media_type == c.media_type
      c.state == "Paused" && p.state == "Paused" && same_show

/-- The pause-dedup gate of `log_spotify_playback_for_user`
(spotify_nowplaying.py, lines 280-302).  The last stored row for this
(device_name, user_name) is compared on title, artist and album only:
`same_track = last_title == title and last_artist == artist and
last_album == album`; skip when
`state == "Paused" and last_state == "Paused" and same_track`. -/
def spotifySuppress (last : Option NPEvent) (c : NPEvent) : Bool :=
  match last with
  | none => false
  | some p =>
      let same_track := p.title == c.title && p.artist == c.artist
        && p.album == c.album
      c.state == "Paused" && p.state == "Paused" && same_track

/-- A stored event, paused on a given title, with a given artist. -/
def pausedEvent (a : Option String) : NPEvent :=
  { ts := 0, state := "Paused", app := some "Music", title := some "Song",
    artist := a, album := some "Album", series_name := none, season := none,
    episode := none, media_type := some "Music" }

/-! ## Failure notification state machine (notify.py)

The persisted `.error_state.json` file is a JSON object
`{"failure_counts": {...}, "last_notified": {...}}`; both inner objects map a
source key (the string `"device:" ++ device_name`) to a value.  JSON objects
are modeled as association lists with dictionary semantics: an update removes
any earlier binding of the key.  Instants are rationals (seconds since an
arbitrary epoch); `datetime` subtraction followed by `.total_seconds() / 60`
becomes rational subtraction divided by 60. -/

structure ErrState where
  failure_counts : List (String × Nat)
  last_notified : List (String × ℚ)
deriving DecidableEq

/-- Dictionary lookup in an association list. -/
def lookupKey {α : Type} : List (String × α) → String → Option α
  | [], _ => none
  | (k, v) :: rest, key => if k = key then some v else lookupKey rest key

/-- Dictionary deletion: `del d[key]`. -/
def eraseKey {α : Type} (l : List (String × α)) (key : String) : List (String × α) :=
  l.filter (fun p => p.1 ≠ key)

/-- Dictionary update: `d[key] = v`. -/
def insertKey {α : Type} (l : List (String × α)) (key : String) (v : α) : List (String × α) :=
  (key, v) :: eraseKey l key

def CONSECUTIVE_FAILURES_THRESHOLD : Nat := 3

def ERROR_COOLDOWN_MINUTES : ℚ := 60

/-- The empty error state `{"failure_counts": {}, "last_notified": {}}`
returned by `_load_error_state` as its default. -/
def emptyErrState : ErrState := { failure_counts := [], last_notified := [] }

/-- Model of `_load_error_state` (notify.py, lines 50-58).  The filesystem check and
`json.load` are external: the argument models the file, `none` meaning
`ERROR_STATE_FILE.exists()` is false, `some (Except.error e)` meaning
`json.load` raised (caught by the bare `except`), and `some (Except.ok s)`
meaning the file parsed to the state `s`.  The function is total: it returns
the empty state in both failure cases instead of propagating an exception. -/
def loadErrorState (file : Option (Except String ErrState)) : ErrState :=
  match file with
  | some (Except.ok s) => s
  | some (Except.error _) => emptyErrState
  | none => emptyErrState

/-- Model of `record_device_success` (notify.py, lines 70-76): drop the failure count
for `error_key = "device:" ++ device_name` when present.  The returned state
is what `_save_error_state` persists (when no deletion happens the file is not
rewritten, so the persisted state is `st` unchanged). -/
def record_device_success (st : ErrState) (device_name : String) : ErrState :=
  let error_key := "device:" ++ device_name
  if (lookupKey st.failure_counts error_key).isSome then
    { failure_counts := eraseKey st.failure_counts error_key,
      last_notified := st.last_notified }
  else st

/-- Model of `record_device_error` (notify.py, lines 79-132).  `st` is the loaded
persisted state, `now` is `datetime.now()`, and `send_ok` models the result of
the external `_send_email` call.  Returns the persisted state after the call
together with the returned boolean.  Mirrors the source: increment and save
the count; below the threshold return false; inside the cooldown window
(`minutes_ago < ERROR_COOLDOWN_MINUTES`) return false; otherwise send, and on
success record `last_notified[error_key] = now`, save, and return true. -/
def record_device_error (st : ErrState) (device_name : String) (now : ℚ)
    (send_ok : Bool) : ErrState × Bool :=
  let error_key := "device:" ++ device_name
  let current_count := (lookupKey st.failure_counts error_key).getD 0 + 1
  let st1 : ErrState :=
    { failure_counts := insertKey st.failure_counts error_key current_count,
      last_notified := st.last_notified }
  if current_count < CONSECUTIVE_FAILURES_THRESHOLD then (st1, false)
  else
    let cooled : Bool :=
      match lookupKey st1.last_notified error_key with
      | none => true
      | some last_notified_at =>
          !(decide ((now - last_notified_at) / 60 < ERROR_COOLDOWN_MINUTES))
    if cooled then
      if send_ok then
        ({ failure_counts := st1.failure_counts,
           last_notified := insertKey st1.last_notified error_key now }, true)
      else (st1, false)
    else (st1, false)

/-! ## Session reconstruction (analyze_sessions.py, create_sessions_table)

The `CREATE TABLE viewing_sessions AS` query partitions the `now_playing` rows
(already restricted to `state IN ('Playing', 'Paused')`) by
(device_name, title, series_name, season, episode, artist, album) and orders
each partition by `ts`.  The partition-key columns are constant inside a
partition, so one partition is modeled as its chronologically ordered list of
rows restricted to the columns the session computation reads: `ts` (seconds,
via `EXTRACT(EPOCH ...)`), `position` and `duration` (nullable DOUBLE). -/

structure PlayEvent where
  ts : ℚ
  position : Option ℚ
  duration : Option ℚ
deriving DecidableEq

def SESSION_GAP_MINUTES : ℚ := 10

def MIN_WATCH_TIME_SECONDS : ℚ := 30

/-- The `is_new_session` CASE of the `with_session_breaks` CTE:
1 when `prev_ts IS NULL OR EXTRACT(EPOCH FROM (ts - prev_ts)) > 600`, else 0. -/
def is_new_session (prev_ts : Option ℚ) (ts : ℚ) : Nat :=
  match prev_ts with
  | none => 1
  | some p => if ts - p > SESSION_GAP_MINUTES * 60 then 1 else 0

/-- Each row of a partition paired with its `LAG(ts)` value (`none` for the
first row, the previous row's `ts` afterwards). -/
def withLag (l : List PlayEvent) : List (Option ℚ × PlayEvent) :=
  (none :: l.map (fun e => some e.ts)).zip l

/-- The `is_new_session` column of the partition, in order. -/
def boundaryFlags (l : List PlayEvent) : List Nat :=
  (withLag l).map (fun p => is_new_session p.1 p.2.ts)

/-- Session id of the row at index `i`: the windowed running sum
`SUM(is_new_session) OVER (... ORDER BY ts)`, i.e. the sum of the flags of
rows 0..i. -/
def sessionIdAt (l : List PlayEvent) (i : Nat) : Nat :=
  ((boundaryFlags l).take (i + 1)).sum

/-- The `session_id` column of the partition, in order. -/
def sessionIds (l : List PlayEvent) : List Nat :=
  (List.range l.length).map (sessionIdAt l)

/-- Each row paired with its session id (the `with_session_ids` CTE). -/
def withIds (l : List PlayEvent) : List (Nat × PlayEvent) :=
  (sessionIds l).zip l

/-- The rows of the partition belonging to session id `sid`
(one `GROUP BY ... session_id` group). -/
def sessionGroup (l : List PlayEvent) (sid : Nat) : List PlayEvent :=
  ((withIds l).filter (fun p => p.1 == sid)).map (fun p => p.2)

/-- Number of sessions in the partition: the total number of boundary flags,
which is the last (largest) session id. -/
def numSessions (l : List PlayEvent) : Nat := (boundaryFlags l).sum

/-- All `GROUP BY` groups of the partition: session ids run 1..numSessions. -/
def sessionGroups (l : List PlayEvent) : List (List PlayEvent) :=
  (List.range (numSessions l)).map (fun j => sessionGroup l (j + 1))

/-- SQL `MAX` over a nullable column: NULL rows are absent from the
aggregate; the result is NULL iff every row is NULL. -/
def sqlMaxQ : List ℚ → Option ℚ
  | [] => none
  | x :: xs =>
      some (match sqlMaxQ xs with
            | none => x
            | some m => max x m)

/-- SQL `MIN` over a nullable column. -/
def sqlMinQ : List ℚ → Option ℚ
  | [] => none
  | x :: xs =>
      some (match sqlMinQ xs with
            | none => x
            | some m => min x m)

/-- `MAX(position)` of a group. -/
def maxPos (g : List PlayEvent) : Option ℚ := sqlMaxQ (g.filterMap (fun e => e.position))

/-- `MIN(position)` of a group. -/
def minPos (g : List PlayEvent) : Option ℚ := sqlMinQ (g.filterMap (fun e => e.position))

/-- `MAX(duration)` of a group. -/
def maxDur (g : List PlayEvent) : Option ℚ := sqlMaxQ (g.filterMap (fun e => e.duration))

/-- `MIN(ts)` of a group (`session_start`); `some` for every nonempty group. -/
def sessionStart (g : List PlayEvent) : Option ℚ := sqlMinQ (g.map (fun e => e.ts))

/-- `MAX(ts)` of a group (`session_end`). -/
def sessionEnd (g : List PlayEvent) : Option ℚ := sqlMaxQ (g.map (fun e => e.ts))

/-- The `watch_time_seconds` CASE (analyze_sessions.py, lines 107-111):
`MAX(position) - MIN(position)` when both are non-NULL, else
`EXTRACT(EPOCH FROM (MAX(ts) - MIN(ts)))`. -/
def watch_time_seconds (g : List PlayEvent) : ℚ :=
  match maxPos g, minPos g with
  | some mx, some mn => mx - mn
  | _, _ => (sessionEnd g).getD 0 - (sessionStart g).getD 0

/-- DuckDB `ROUND(x, 1)`: round to one decimal digit. -/
def round1 (q : ℚ) : ℚ := (round (q * 10) : ℤ) / 10

/-- The `completion_pct` CASE (analyze_sessions.py, lines 113-117):
`ROUND((MAX(position) / MAX(duration)) * 100, 1)` when `MAX(duration) > 0` (a
NULL duration fails this SQL comparison) and `MAX(position)` is non-NULL,
else NULL. -/
def completion_pct (g : List PlayEvent) : Option ℚ :=
  match maxDur g, maxPos g with
  | some d, some p => if 0 < d then some (round1 (p / d * 100)) else none
  | _, _ => none

/-- The groups surviving the HAVING clause
`COUNT(*) >= 1 AND watch_time_seconds >= 30`: the rows of the
`viewing_sessions` table for this partition. -/
def viewing_sessions (l : List PlayEvent) : List (List PlayEvent) :=
  (sessionGroups l).filter
    (fun g => decide (1 ≤ g.length) && decide (MIN_WATCH_TIME_SECONDS ≤ watch_time_seconds g))

end AppleNowPlaying

namespace AppleNowPlaying

/-! ## Theorems -/

/-- Looking up the key just inserted yields the inserted value. -/
theorem lookupKey_insertKey_self {α : Type} (l : List (String × α)) (k : String) (v : α) :
    lookupKey (insertKey l k v) k = some v := by
  simp [insertKey, lookupKey]

/-- Looking up a key just erased yields `none`. -/
theorem lookupKey_eraseKey_self {α : Type} (l : List (String × α)) (k : String) :
    lookupKey (eraseKey l k) k = none := by
  induction l with
  | nil => rfl
  | cons p rest ih =>
      by_cases h : p.1 = k
      · simpa [eraseKey, h] using ih
      · simpa [eraseKey, lookupKey, h] using ih

/-- C1 counterexample: the device gate suppresses a Paused candidate whose
artist differs from the previous event's artist, so suppression does not imply
agreement on the full media identity (title, artist, album, series_name,
season, episode): the gate never reads the artist and album columns. -/
theorem c1_counterexample :
    deviceSuppress (some (pausedEvent (some "ArtistA"))) (pausedEvent (some "ArtistB")) = true
    ∧ (pausedEvent (some "ArtistA")).artist ≠ (pausedEvent (some "ArtistB")).artist := by
  constructor
  · rfl
  · simp [pausedEvent]

/-- C1 (amended): with no previous event nothing is suppressed; the device
gate suppresses iff both events are Paused and agree on app, title,
series_name, season, episode and media_type (artist and album are not
compared); the Spotify gate suppresses iff both events are Paused and agree on
title, artist and album; consequently feeding either gate the same Paused
snapshot twice in a row suppresses the repeat, storing exactly one event. -/
theorem c1_ingest_gate_characterization :
    (∀ c, deviceSuppress none c = false ∧ spotifySuppress none c = false)
    ∧ (∀ p c, deviceSuppress (some p) c = true ↔
        (c.state = "Paused" ∧ p.state = "Paused" ∧ p.app = c.app
          ∧ p.title = c.title ∧ p.series_name = c.series_name
          ∧ p.season = c.season ∧ p.episode = c.episode
          ∧ p.media_type = c.media_type))
    ∧ (∀ p c, spotifySuppress (some p) c = true ↔
        (c.state = "Paused" ∧ p.state = "Paused" ∧ p.title = c.title
          ∧ p.artist = c.artist ∧ p.album = c.album))
    ∧ (∀ e, e.state = "Paused" →
        deviceSuppress (some e) e = true ∧ spotifySuppress (some e) e = true) := by
  refine ⟨fun c => ⟨rfl, rfl⟩, ?_, ?_, ?_⟩
  · intro p c
    simp [deviceSuppress, Bool.and_assoc, and_assoc]
  · intro p c
    simp [spotifySuppress, Bool.and_assoc, and_assoc]
  · intro e he
    constructor
    · simp [deviceSuppress, he]
    · simp [spotifySuppress, he]

/-- C1 witness: the dedup-idempotence consequence at a concrete Paused
snapshot, obtained from the characterization theorem. -/
theorem c1_witness :
    deviceSuppress (some (pausedEvent none)) (pausedEvent none) = true
    ∧ spotifySuppress (some (pausedEvent none)) (pausedEvent none) = true :=
  c1_ingest_gate_characterization.2.2.2 (pausedEvent none) rfl

/-- C2: `record_device_error` increments and persists the consecutive-failure
count; it returns true iff the incremented count has reached the threshold,
no notification for this source was sent within the cooldown window, and the
send succeeded; `last_notified` for the source is set to `now` exactly when it
returns true, and on any false return (including a failed send) the
`last_notified` map is left unchanged. -/
theorem c2_record_device_error_spec (st : ErrState) (name : String) (now : ℚ)
    (send_ok : Bool) :
    lookupKey (record_device_error st name now send_ok).1.failure_counts ("device:" ++ name)
        = some ((lookupKey st.failure_counts ("device:" ++ name)).getD 0 + 1)
    ∧ ((record_device_error st name now send_ok).2 = true ↔
        (CONSECUTIVE_FAILURES_THRESHOLD ≤ (lookupKey st.failure_counts ("device:" ++ name)).getD 0 + 1
          ∧ (∀ last, lookupKey st.last_notified ("device:" ++ name) = some last →
              ERROR_COOLDOWN_MINUTES ≤ (now - last) / 60)
          ∧ send_ok = true))
    ∧ ((record_device_error st name now send_ok).2 = true →
        lookupKey (record_device_error st name now send_ok).1.last_notified ("device:" ++ name)
          = some now)
    ∧ ((record_device_error st name now send_ok).2 = false →
        (record_device_error st name now send_ok).1.last_notified = st.last_notified) := by
  unfold record_device_error
  rcases hl : lookupKey st.last_notified ("device:" ++ name) with _ | last
  · by_cases hth :
      (lookupKey st.failure_counts ("device:" ++ name)).getD 0 + 1 < CONSECUTIVE_FAILURES_THRESHOLD
    · simp [hl, hth, lookupKey_insertKey_self]
    · cases send_ok with
      | false => simp [hl, hth, lookupKey_insertKey_self]
      | true => simp [hl, hth, lookupKey_insertKey_self]; omega
  · by_cases hth :
      (lookupKey st.failure_counts ("device:" ++ name)).getD 0 + 1 < CONSECUTIVE_FAILURES_THRESHOLD
    · simp [hl, hth, lookupKey_insertKey_self]
    · by_cases hcool : (now - last) / 60 < ERROR_COOLDOWN_MINUTES
      · simp [hl, hth, hcool, lookupKey_insertKey_self]
      · cases send_ok with
        | false => simp [hl, hth, hcool, lookupKey_insertKey_self]
        | true =>
            simp [hl, hth, hcool, lookupKey_insertKey_self]
            exact ⟨by omega, not_lt.mp hcool⟩

/-- C2 witness: from a persisted count of 2, a third failure with no prior
notification and a successful send returns true and records the send time. -/
theorem c2_witness :
    (record_device_error
        { failure_counts := [("device:Office", 2)], last_notified := [] }
        "Office" 1000 true).2 = true
    ∧ lookupKey (record_device_error
        { failure_counts := [("device:Office", 2)], last_notified := [] }
        "Office" 1000 true).1.last_notified "device:Office" = some 1000 := by
  have h := c2_record_device_error_spec
    { failure_counts := [("device:Office", 2)], last_notified := [] } "Office" 1000 true
  have hres : (record_device_error
      { failure_counts := [("device:Office", 2)], last_notified := [] }
      "Office" 1000 true).2 = true := by
    apply h.2.1.mpr
    refine ⟨by decide, ?_, rfl⟩
    intro last hlast
    simp [lookupKey] at hlast
  exact ⟨hres, h.2.2.1 hres⟩

/-- C8 counterexample: after a success for device "TV", the stored
`last_notified` timestamp for "device:TV" is still present (only the failure
count is removed), so the persisted FailureState is not made wholly absent. -/
theorem c8_counterexample :
    lookupKey (record_device_success
        { failure_counts := [("device:TV", 1)], last_notified := [("device:TV", 50)] }
        "TV").last_notified "device:TV" = some 50
    ∧ lookupKey (record_device_success
        { failure_counts := [("device:TV", 1)], last_notified := [("device:TV", 50)] }
        "TV").failure_counts "device:TV" = none := by
  constructor <;> rfl

/-- C8 (amended): `record_device_success` removes the consecutive-failure
counter for the source, leaves the `last_notified` map unchanged (the
last-notified timestamp is retained, not removed), and is idempotent: a second
call for the same source leaves the persisted state unchanged. -/
theorem c8_record_device_success_spec (st : ErrState) (name : String) :
    lookupKey (record_device_success st name).failure_counts ("device:" ++ name) = none
    ∧ (record_device_success st name).last_notified = st.last_notified
    ∧ record_device_success (record_device_success st name) name
        = record_device_success st name := by
  by_cases h : (lookupKey st.failure_counts ("device:" ++ name)).isSome
  · refine ⟨?_, ?_, ?_⟩
    · simp [record_device_success, h, lookupKey_eraseKey_self]
    · simp [record_device_success, h]
    · have h2 : record_device_success st name =
        { failure_counts := eraseKey st.failure_counts ("device:" ++ name),
          last_notified := st.last_notified } := by
        simp [record_device_success, h]
      rw [h2]
      simp [record_device_success, lookupKey_eraseKey_self]
  · have h2 : record_device_success st name = st := by
      simp [record_device_success, h]
    rw [h2]
    refine ⟨?_, rfl, h2⟩
    simpa [record_device_success, h2] using (by simpa using h)

/-- C9: loading the persisted failure-state file is total, and when the file
is absent or its contents cannot be parsed it returns the empty state (no
failure counts, no last-notified entries) instead of crashing. -/
theorem c9_load_error_state_spec (file : Option (Except String ErrState))
    (h : file = none ∨ ∃ e, file = some (Except.error e)) :
    loadErrorState file = emptyErrState := by
  rcases h with h | ⟨e, h⟩ <;> subst h <;> rfl

/-- C9 witness: an absent state file loads as the empty state. -/
theorem c9_witness : loadErrorState none = emptyErrState :=
  c9_load_error_state_spec none (Or.inl rfl)

/-- The lag column has one entry per partition row. -/
theorem length_withLag (l : List PlayEvent) : (withLag l).length = l.length := by
  simp [withLag]

/-- The boundary-flag column has one entry per partition row. -/
theorem length_boundaryFlags (l : List PlayEvent) : (boundaryFlags l).length = l.length := by
  simp [boundaryFlags, length_withLag]

/-- The session-id column has one entry per partition row. -/
theorem length_sessionIds (l : List PlayEvent) : (sessionIds l).length = l.length := by
  simp [sessionIds]

/-- The first row of a partition always carries boundary flag 1. -/
theorem boundaryFlags_getElem_zero (l : List PlayEvent)
    (hb : 0 < (boundaryFlags l).length) :
    (boundaryFlags l)[0] = 1 := by
  match l with
  | e :: rest => simp [boundaryFlags, withLag, is_new_session]

/-- A later row's boundary flag is computed from its gap to its predecessor. -/
theorem boundaryFlags_getElem_succ (l : List PlayEvent) (j : Nat)
    (hj1 : j + 1 < l.length) (hj : j < l.length)
    (hb : j + 1 < (boundaryFlags l).length) :
    (boundaryFlags l)[j + 1] = is_new_session (some l[j].ts) l[j + 1].ts := by
  simp [boundaryFlags, withLag, List.getElem_map, List.getElem_zip]

/-- The session id of row `i` is the prefix sum of the boundary flags. -/
theorem sessionIds_getElem (l : List PlayEvent) (i : Nat)
    (hs : i < (sessionIds l).length) :
    (sessionIds l)[i] = ((boundaryFlags l).take (i + 1)).sum := by
  simp [sessionIds, List.getElem_map, List.getElem_range, sessionIdAt]

/-- C3: within a partition ordered by timestamp, the row at index `i` carries
boundary flag 1 iff it has no predecessor (`i = 0`) or its gap to the
predecessor exceeds the threshold of 10 minutes (600 seconds); and its session
id is the running count of boundary flags over rows 0..i, so all events
between two consecutive boundaries share one session id. -/
theorem c3_session_boundaries_and_ids (l : List PlayEvent) (i : Nat)
    (h : i < l.length) :
    ((boundaryFlags l).get ⟨i, (length_boundaryFlags l).symm ▸ h⟩ = 1 ↔
      (i = 0 ∨ SESSION_GAP_MINUTES * 60 <
        (l.get ⟨i, h⟩).ts - (l.get ⟨i - 1, lt_of_le_of_lt (Nat.sub_le i 1) h⟩).ts))
    ∧ (sessionIds l).get ⟨i, (length_sessionIds l).symm ▸ h⟩
        = ((boundaryFlags l).take (i + 1)).sum := by
  simp only [List.get_eq_getElem]
  constructor
  · cases i with
    | zero =>
        rw [boundaryFlags_getElem_zero l (by rw [length_boundaryFlags]; exact h)]
        simp
    | succ j =>
        rw [boundaryFlags_getElem_succ l j h (Nat.lt_of_succ_lt h)
          (by rw [length_boundaryFlags]; exact h)]
        simp only [is_new_session, Nat.succ_sub_one, Nat.succ_ne_zero, false_or, gt_iff_lt]
        split
        · next hgt => simp only [hgt, iff_true]
        · next hgt => exact iff_of_false (by omega) hgt
  · exact sessionIds_getElem l i (by rw [length_sessionIds]; exact h)

/-- C3 witness: the running-count session id of the second of two events
1200 seconds apart. -/
theorem c3_witness :
    (sessionIds ([⟨0, none, none⟩, ⟨1200, none, none⟩] : List PlayEvent)).get
        ⟨1, by rw [length_sessionIds]; norm_num⟩
      = ((boundaryFlags ([⟨0, none, none⟩, ⟨1200, none, none⟩] : List PlayEvent)).take 2).sum :=
  (c3_session_boundaries_and_ids
    ([⟨0, none, none⟩, ⟨1200, none, none⟩] : List PlayEvent) 1 (by norm_num)).2

/-- SQL MAX of an empty aggregate (all inputs NULL) is NULL, and conversely. -/
theorem sqlMaxQ_eq_none_iff (l : List ℚ) : sqlMaxQ l = none ↔ l = [] := by
  cases l <;> simp [sqlMaxQ]

/-- SQL MIN of an empty aggregate (all inputs NULL) is NULL, and conversely. -/
theorem sqlMinQ_eq_none_iff (l : List ℚ) : sqlMinQ l = none ↔ l = [] := by
  cases l <;> simp [sqlMinQ]

/-- Every aggregated value is bounded by the SQL MAX of its list. -/
theorem le_sqlMaxQ (l : List ℚ) (p : ℚ) (hp : p ∈ l) :
    ∃ m, sqlMaxQ l = some m ∧ p ≤ m := by
  induction l with
  | nil => cases hp
  | cons x xs ih =>
      rcases List.mem_cons.mp hp with rfl | hmem
      · rcases hx : sqlMaxQ xs with _ | m
        · exact ⟨p, by simp [sqlMaxQ, hx], le_refl p⟩
        · exact ⟨max p m, by simp [sqlMaxQ, hx], le_max_left p m⟩
      · rcases ih hmem with ⟨m, hm, hpm⟩
        exact ⟨max x m, by simp [sqlMaxQ, hm], le_trans hpm (le_max_right x m)⟩

/-- Every aggregated value is bounded below by the SQL MIN of its list. -/
theorem sqlMinQ_le (l : List ℚ) (p : ℚ) (hp : p ∈ l) :
    ∃ m, sqlMinQ l = some m ∧ m ≤ p := by
  induction l with
  | nil => cases hp
  | cons x xs ih =>
      rcases List.mem_cons.mp hp with rfl | hmem
      · rcases hx : sqlMinQ xs with _ | m
        · exact ⟨p, by simp [sqlMinQ, hx], le_refl p⟩
        · exact ⟨min p m, by simp [sqlMinQ, hx], min_le_left p m⟩
      · rcases ih hmem with ⟨m, hm, hpm⟩
        exact ⟨min x m, by simp [sqlMinQ, hm], le_trans (min_le_right x m) hpm⟩

/-- C4: a session group's watch time is `MAX(position) - MIN(position)` when
both are known, and falls back to `session_end - session_start` otherwise; in
particular a nonempty group whose events all have NULL position but known
timestamps gets `watch_time_seconds = session_end - session_start` and
`completion_pct` NULL. -/
theorem c4_watch_time_rule (g : List PlayEvent) :
    (∀ mx mn, maxPos g = some mx → minPos g = some mn →
        watch_time_seconds g = mx - mn)
    ∧ ((maxPos g = none ∨ minPos g = none) →
        watch_time_seconds g = (sessionEnd g).getD 0 - (sessionStart g).getD 0)
    ∧ ((∀ e ∈ g, e.position = none) → g ≠ [] →
        ∃ s t, sessionStart g = some s ∧ sessionEnd g = some t ∧
          watch_time_seconds g = t - s ∧ completion_pct g = none) := by
  refine ⟨?_, ?_, ?_⟩
  · intro mx mn hmx hmn
    simp [watch_time_seconds, hmx, hmn]
  · intro h
    rcases h with h | h
    · simp [watch_time_seconds, h]
    · rcases hmx : maxPos g with _ | mx
      · simp [watch_time_seconds, hmx]
      · exfalso
        rw [minPos, sqlMinQ_eq_none_iff] at h
        rw [maxPos, h] at hmx
        simp [sqlMaxQ] at hmx
  · intro hall hne
    have hfm : g.filterMap (fun e => e.position) = [] := by
      simp only [List.filterMap_eq_nil_iff]
      exact hall
    have hmx : maxPos g = none := by rw [maxPos, hfm]; rfl
    have hts : g.map (fun e => e.ts) ≠ [] := by
      simpa using hne
    rcases hs : sessionStart g with _ | s
    · rw [sessionStart, sqlMinQ_eq_none_iff] at hs
      exact absurd hs hts
    · rcases ht : sessionEnd g with _ | t
      · rw [sessionEnd, sqlMaxQ_eq_none_iff] at ht
        exact absurd ht hts
      · refine ⟨s, t, rfl, rfl, ?_, ?_⟩
        · simp [watch_time_seconds, hmx, hs, ht]
        · simp [completion_pct, hmx]

/-- C4 witness: two position-less events 100 seconds apart give the wall-clock
fallback and a NULL completion percentage. -/
theorem c4_witness :
    ∃ s t,
      sessionStart ([⟨0, none, none⟩, ⟨100, none, none⟩] : List PlayEvent) = some s
      ∧ sessionEnd ([⟨0, none, none⟩, ⟨100, none, none⟩] : List PlayEvent) = some t
      ∧ watch_time_seconds ([⟨0, none, none⟩, ⟨100, none, none⟩] : List PlayEvent) = t - s
      ∧ completion_pct ([⟨0, none, none⟩, ⟨100, none, none⟩] : List PlayEvent) = none :=
  (c4_watch_time_rule _).2.2 (by decide) (by simp)

/-- C5 counterexample: a session whose max position (2501) exceeds its
duration (2500) still gets `completion_pct = 100.0` — `ROUND(100.04, 1)` is
100.0, not a value greater than 100 — so a max position exceeding the duration
does not always yield a completion percentage greater than 100. -/
theorem c5_counterexample :
    maxPos ([⟨0, some 2501, some 2500⟩] : List PlayEvent) = some 2501
    ∧ maxDur ([⟨0, some 2501, some 2500⟩] : List PlayEvent) = some 2500
    ∧ (2500 : ℚ) < 2501
    ∧ completion_pct ([⟨0, some 2501, some 2500⟩] : List PlayEvent) = some 100
    ∧ ¬(100 : ℚ) < 100 := by
  refine ⟨?_, ?_, by norm_num, ?_, by norm_num⟩
  · norm_num [maxPos, sqlMaxQ]
  · norm_num [maxDur, sqlMaxQ]
  · norm_num [completion_pct, maxPos, maxDur, sqlMaxQ, round1, round_eq]

/-- C5 (amended): `completion_pct` equals `round(max(position) / max(duration)
* 100, 1)` when the max duration is known and positive and the max position is
known, and is NULL otherwise; the value is not clamped, so it can exceed 100
and is preserved as-is (a lone position 250 with duration 200 yields 125.0),
though an excess below half of the rounding step rounds to exactly 100.0;
positions 10 then 190 with duration 200 in one session yield
`watch_time_seconds = 180` and `completion_pct = 95.0`. -/
theorem c5_completion_rule :
    (∀ g d p, maxDur g = some d → 0 < d → maxPos g = some p →
        completion_pct g = some (round1 (p / d * 100)))
    ∧ (∀ g : List PlayEvent, completion_pct g = none ↔
        ¬∃ d, maxDur g = some d ∧ 0 < d ∧ (maxPos g).isSome = true)
    ∧ (watch_time_seconds ([⟨0, some 10, some 200⟩, ⟨60, some 190, some 200⟩] : List PlayEvent)
          = 180
        ∧ completion_pct ([⟨0, some 10, some 200⟩, ⟨60, some 190, some 200⟩] : List PlayEvent)
          = some 95)
    ∧ (completion_pct ([⟨0, some 250, some 200⟩] : List PlayEvent) = some 125
        ∧ (100 : ℚ) < 125) := by
  refine ⟨?_, ?_, ⟨?_, ?_⟩, ⟨?_, ?_⟩⟩
  · intro g d p hd h0 hp
    simp [completion_pct, hd, hp, h0]
  · intro g
    rcases hd : maxDur g with _ | d
    · simp [completion_pct, hd]
    · rcases hp : maxPos g with _ | p
      · simp [completion_pct, hd, hp]
      · by_cases h0 : 0 < d
        · simp [completion_pct, hd, hp, h0]
        · simp [completion_pct, hd, hp, h0]
  · norm_num [watch_time_seconds, maxPos, minPos, sqlMaxQ, sqlMinQ]
  · norm_num [completion_pct, maxPos, maxDur, sqlMaxQ, round1]
  · norm_num [completion_pct, maxPos, maxDur, sqlMaxQ, round1, round_eq]
  · norm_num

/-- C5 witness: the formula branch evaluated on the two-event example
session. -/
theorem c5_witness :
    completion_pct ([⟨0, some 10, some 200⟩, ⟨60, some 190, some 200⟩] : List PlayEvent)
      = some (round1 (190 / 200 * 100)) :=
  c5_completion_rule.1 ([⟨0, some 10, some 200⟩, ⟨60, some 190, some 200⟩] : List PlayEvent)
    200 190
    (by norm_num [maxDur, sqlMaxQ]) (by norm_num) (by norm_num [maxPos, sqlMaxQ])

/-- C6: a partition with position-less events at t = 0, 5 and 20 minutes and
the 10-minute gap threshold segments into exactly two sessions, the first
containing the events at t = 0 and t = 5 (session id 1) and the second the
event at t = 20 (session id 2). -/
theorem c6_gap_segmentation :
    sessionIds ([⟨0, none, none⟩, ⟨300, none, none⟩, ⟨1200, none, none⟩] : List PlayEvent)
        = [1, 1, 2]
    ∧ sessionGroups ([⟨0, none, none⟩, ⟨300, none, none⟩, ⟨1200, none, none⟩] : List PlayEvent)
        = [[⟨0, none, none⟩, ⟨300, none, none⟩], [⟨1200, none, none⟩]] := by
  constructor
  · norm_num [sessionIds, sessionIdAt, boundaryFlags, withLag, is_new_session,
      SESSION_GAP_MINUTES, List.range_succ]
  · norm_num [sessionGroups, numSessions, sessionGroup, withIds, sessionIds, sessionIdAt,
      boundaryFlags, withLag, is_new_session, SESSION_GAP_MINUTES, List.range_succ]

/-- C7: adding an event with a NULL position to a group leaves the MAX and MIN
position aggregates unchanged (NULLs are absent from the aggregate, not
treated as zero), and as long as some member has a position the group's watch
time is also unchanged and equals the range of the present positions — the
group is never zeroed merely because a member lacked a position reading. -/
theorem c7_null_positions_ignored (g : List PlayEvent) (e : PlayEvent)
    (hnull : e.position = none) :
    maxPos (e :: g) = maxPos g
    ∧ minPos (e :: g) = minPos g
    ∧ ((∃ x ∈ g, (x.position).isSome = true) →
        watch_time_seconds (e :: g) = watch_time_seconds g
          ∧ ∃ mx mn, maxPos g = some mx ∧ minPos g = some mn
              ∧ watch_time_seconds g = mx - mn ∧ mn ≤ mx) := by
  have hmx : maxPos (e :: g) = maxPos g := by
    simp [maxPos, List.filterMap_cons, hnull]
  have hmn : minPos (e :: g) = minPos g := by
    simp [minPos, List.filterMap_cons, hnull]
  refine ⟨hmx, hmn, ?_⟩
  rintro ⟨x, hx, hxp⟩
  rcases hp : x.position with _ | p
  · rw [hp] at hxp; cases hxp
  · have hpmem : p ∈ g.filterMap (fun e => e.position) :=
      List.mem_filterMap.mpr ⟨x, hx, hp⟩
    rcases le_sqlMaxQ _ p hpmem with ⟨mx, hmx', hpmx⟩
    rcases sqlMinQ_le _ p hpmem with ⟨mn, hmn', hmnp⟩
    have h1 : maxPos g = some mx := hmx'
    have h2 : minPos g = some mn := hmn'
    refine ⟨?_, mx, mn, h1, h2, ?_, le_trans hmnp hpmx⟩
    · simp [watch_time_seconds, hmx, hmn, h1, h2]
    · simp [watch_time_seconds, h1, h2]

/-- C7 witness: a NULL-position event joined to a one-event group with
position 10 leaves the aggregates and the watch time untouched. -/
theorem c7_witness :
    watch_time_seconds ([⟨50, none, none⟩, ⟨0, some 10, some 200⟩] : List PlayEvent)
      = watch_time_seconds ([⟨0, some 10, some 200⟩] : List PlayEvent)
    ∧ ∃ mx mn, maxPos ([⟨0, some 10, some 200⟩] : List PlayEvent) = some mx
        ∧ minPos ([⟨0, some 10, some 200⟩] : List PlayEvent) = some mn
        ∧ watch_time_seconds ([⟨0, some 10, some 200⟩] : List PlayEvent) = mx - mn
        ∧ mn ≤ mx :=
  (c7_null_positions_ignored [⟨0, some 10, some 200⟩] ⟨50, none, none⟩ rfl).2.2
    ⟨⟨0, some 10, some 200⟩, by simp, rfl⟩

/-- A one-event group always computes zero watch time: with a position the
MAX and MIN coincide, without one the session start and end coincide. -/
theorem watch_time_singleton (e : PlayEvent) : watch_time_seconds [e] = 0 := by
  rcases hp : e.position with _ | p
  · simp [watch_time_seconds, maxPos, minPos, sqlMaxQ, sqlMinQ, hp,
      sessionStart, sessionEnd]
  · simp [watch_time_seconds, maxPos, minPos, sqlMaxQ, sqlMinQ, hp]

/-- C10: every singleton session group computes `watch_time_seconds = 0`
(whether or not the event carries a position), so under the 30-second
minimum-watch-time HAVING clause every group in the `viewing_sessions` output
has at least 2 entries. -/
theorem c10_singleton_sessions_filtered :
    (∀ e : PlayEvent, watch_time_seconds [e] = 0)
    ∧ (∀ (l : List PlayEvent) (g : List PlayEvent),
        g ∈ viewing_sessions l → 2 ≤ g.length) := by
  refine ⟨watch_time_singleton, ?_⟩
  intro l g hg
  rw [viewing_sessions, List.mem_filter] at hg
  rcases hg with ⟨hmem, hcond⟩
  rw [Bool.and_eq_true, decide_eq_true_eq, decide_eq_true_eq] at hcond
  rcases hcond with ⟨hlen, hwt⟩
  match g, hlen with
  | [e], _ =>
      rw [watch_time_singleton e] at hwt
      norm_num [MIN_WATCH_TIME_SECONDS] at hwt
  | e1 :: e2 :: t, _ => simp [List.length_cons]

/-- C10 witness: a surviving two-event session of the output table indeed has
at least two entries. -/
theorem c10_witness :
    2 ≤ ([⟨0, some 0, none⟩, ⟨60, some 100, none⟩] : List PlayEvent).length :=
  c10_singleton_sessions_filtered.2 [⟨0, some 0, none⟩, ⟨60, some 100, none⟩]
    [⟨0, some 0, none⟩, ⟨60, some 100, none⟩]
    (by norm_num [viewing_sessions, sessionGroups, numSessions, sessionGroup, withIds,
      sessionIds, sessionIdAt, boundaryFlags, withLag, is_new_session, SESSION_GAP_MINUTES,
      MIN_WATCH_TIME_SECONDS, watch_time_seconds, maxPos, minPos, sqlMaxQ, sqlMinQ,
      List.range_succ, List.mem_filter])

end AppleNowPlaying
